import Mathlib

/-!
# ingress-oci: desired-state builder, create request and reconciler

A shallow embedding of

* `internal/ingress/specification.go` (the `Specification` accessors),
* `internal/oci/loadbalancer/loadbalancer.go` (`OCILoadBalancerController.Create`),
* `internal/ingress/controller/reconciller.go` (`Reconciler.Reconcile` and helpers).

Conventions.

* A Go pointer `*T` is `Option T`; a function that dereferences a nil pointer
  panics, which is the result `none`.
* A Go `map[string]string` is `Option (List (String × String))`: `none` is the
  nil map, `some kvs` a map read by first match on the key.
* A Go slice `[]string` is `Option (List String)`: `none` is the nil slice.
* Side effects (log lines, calls to collaborators) are returned as a list of
  `Event`s, oldest first, next to the Go return values.
-/

namespace IngressOCI

/-! ## Kubernetes and OCI data, as far as the code reads and writes it -/

/-- Go `map[string]string`; `none` is the nil map. -/
abbrev StringMap := Option (List (String × String))

/-- Two-valued map read `value, ok := m[k]`; `none` is `ok == false`.  Reading
a nil map is allowed in Go and finds nothing. -/
def StringMap.get (m : StringMap) (k : String) : Option String :=
  match m with
  | none => none
  | some kvs => kvs.lookup k

/-- core_v1.LoadBalancerIngress -/
structure LoadBalancerIngress where
  IP : String
  Hostname : String
  deriving DecidableEq, Repr

/-- extensions/v1beta1 IngressBackend -/
structure IngressBackend where
  ServiceName : String
  ServicePort : Nat
  deriving DecidableEq, Repr

/-- extensions/v1beta1 HTTPIngressPath -/
structure HTTPIngressPath where
  Path : String
  Backend : IngressBackend
  deriving DecidableEq, Repr

/-- extensions/v1beta1 IngressRule (host plus HTTP paths) -/
structure IngressRule where
  Host : String
  Paths : List HTTPIngressPath
  deriving DecidableEq, Repr

/-- extensions/v1beta1 Ingress: object meta, rules and load-balancer status. -/
structure Ingress where
  Namespace : String
  Name : String
  Annotations : StringMap
  Rules : List IngressRule
  StatusLoadBalancerIngress : List LoadBalancerIngress
  deriving DecidableEq, Repr

/-- core_v1.NodeAddress; `Type_` is the field `Type`, of the Go string type `NodeAddressType`. -/
structure NodeAddress where
  Type_ : String
  Address : String
  deriving DecidableEq, Repr

/-- core_v1.NodeInternalIP -/
def NodeInternalIP : String := "InternalIP"

/-- core_v1.Node: name and `Status.Addresses`. -/
structure Node where
  Name : String
  StatusAddresses : List NodeAddress
  deriving DecidableEq, Repr

/-- config.Config, `Loadbalancer` section (the fields the code reads);
`Subnets` is a Go `[]string`, `none` for the nil slice. -/
structure Config where
  LoadbalancerCompartment : String
  LoadbalancerSubnets : Option (List String)
  deriving DecidableEq, Repr

/-- loadbalancer.BackendDetails (OCI SDK) -/
structure BackendDetails where
  IpAddress : String
  Port : Nat
  deriving DecidableEq, Repr

/-- loadbalancer.BackendSetDetails (OCI SDK) -/
structure BackendSetDetails where
  Backends : List BackendDetails
  deriving DecidableEq, Repr

/-- loadbalancer.PathRoute (OCI SDK): a path and the backend set it targets. -/
structure PathRoute where
  Path : String
  BackendSetName : String
  deriving DecidableEq, Repr

/-- loadbalancer.PathRouteSetDetails (OCI SDK) -/
structure PathRouteSetDetails where
  PathRoutes : List PathRoute
  deriving DecidableEq, Repr

/-! ## internal/ingress/specification.go -/

def IngressAnnotationLoadBalancerVisibility : String :=
  "ingress.beta.kubernetes.io/oci-load-balancer-visibility"

def IngressAnnotationLoadBalancerShape : String :=
  "ingress.beta.kubernetes.io/oci-load-balancer-shape"

def IngressAnnotationLoadBalancerCompartment : String :=
  "ingress.beta.kubernetes.io/oci-load-balancer-compartment"

def defaultLoadBalancerShape : String := "100Mbps"

/-- The shapes the comment on `IngressAnnotationLoadBalancerShape` lists as
available; the code never reads this list. -/
def availableShapes : List String := ["100Mbps", "400Mbps", "8000Mbps"]

/-- Specification describes the desired state of the OCI load balancer. -/
structure Specification where
  Config : Config
  Ingress : Option Ingress
  Nodes : List (Option Node)
  deriving DecidableEq, Repr

def NewSpecification (configuration : Config) (ingress : Option Ingress)
    (nodes : List (Option Node)) : Specification :=
  { Config := configuration, Ingress := ingress, Nodes := nodes }

/-- Reads `ingress.Annotations[k]`; `none` is the nil-pointer panic. -/
def getIngressAnnotationOrDefault (ingress : Option Ingress) (k defaultValue : String) :
    Option String :=
  match ingress with
  | none => none
  | some ing =>
    match ing.Annotations.get k with
    | some value => some value
    | none => some defaultValue

def Specification.GetLoadBalancerShape (spec : Specification) : Option String :=
  getIngressAnnotationOrDefault spec.Ingress IngressAnnotationLoadBalancerShape
    defaultLoadBalancerShape

def Specification.GetLoadBalancerSubnets (spec : Specification) :
    Option (List String) :=
  spec.Config.LoadbalancerSubnets

def Specification.GetLoadBalancerCompartment (spec : Specification) : String :=
  spec.Config.LoadbalancerCompartment

def Specification.LoadBalancerIsPrivate (spec : Specification) : Option Bool :=
  (getIngressAnnotationOrDefault spec.Ingress IngressAnnotationLoadBalancerVisibility
    "public").map (fun v => v == "private")

/-- Returns the empty map literal `map[string]loadbalancer.BackendSetDetails{}`. -/
def Specification.GetBackendSets (_spec : Specification) :
    List (String × BackendSetDetails) :=
  []

/-- Returns the empty map literal `map[string]loadbalancer.PathRouteSetDetails{}`. -/
def Specification.GetPathRouteSets (_spec : Specification) :
    List (String × PathRouteSetDetails) :=
  []

/-- Reads `spec.Ingress.Name`; `none` is the nil-pointer panic. -/
def Specification.GetLoadBalancerFreeFormTags (spec : Specification) :
    Option (List (String × String)) :=
  match spec.Ingress with
  | none => none
  | some ing => some [("ingress.name", ing.Name)]

/-- The loop `for _, addr := range node.Status.Addresses`. -/
def firstInternalIP : List NodeAddress → String
  | [] => ""
  | addr :: rest =>
    if addr.Type_ = NodeInternalIP then addr.Address else firstInternalIP rest

/-- Reads `node.Status.Addresses`; `none` is the nil-pointer panic. -/
def getNodeInternalIPAddress (node : Option Node) : Option String :=
  match node with
  | none => none
  | some n => some (firstInternalIP n.StatusAddresses)

/-! ## internal/oci/loadbalancer/loadbalancer.go -/

/-- A Go `error` value as the code inspects it: the API status reason that
`errors.IsNotFound` reads, and the message. -/
structure Error where
  Reason : String
  Message : String
  deriving DecidableEq, Repr

/-- k8s.io/apimachinery `errors.IsNotFound`: the status reason is `NotFound`. -/
def IsNotFound (err : Error) : Bool :=
  err.Reason == "NotFound"

/-- Modelled from the spec: the declaration of `LoadBalancerDefinition` is not
part of the sources; `Create` reads its fields `Name` and `Shape`, and the other
fields are those of the spec's `LoadBalancerSpec` (visibility, compartment,
subnets, tags). -/
structure LoadBalancerDefinition where
  Name : String
  Shape : String
  IsPrivate : Bool
  Compartment : String
  Subnets : Option (List String)
  FreeformTags : StringMap
  deriving DecidableEq, Repr

/-- loadbalancer.CreateLoadBalancerDetails (OCI SDK).  Pointer fields are
options; a field the struct literal does not set has its zero value (`none`). -/
structure CreateLoadBalancerDetails where
  CompartmentId : Option String
  DisplayName : Option String
  ShapeName : Option String
  IsPrivate : Option Bool
  SubnetIds : Option (List String)
  FreeformTags : StringMap
  deriving DecidableEq, Repr

/-- loadbalancer.CreateLoadBalancerRequest (OCI SDK) -/
structure CreateLoadBalancerRequest where
  CreateLoadBalancerDetails : CreateLoadBalancerDetails
  deriving DecidableEq, Repr

/-- oci loadbalancer.LoadBalancer as observed: lifecycle state and addresses. -/
structure LoadBalancer where
  Id : String
  LifecycleState : String
  IpAddresses : List String
  deriving DecidableEq, Repr

/-- The controller: `client` is the answer of the cloud API to a create
request that reaches it (its error, `none` for nil). -/
structure OCILoadBalancerController where
  client : CreateLoadBalancerRequest → Option Error
  configuration : Config

/-- The error of the OCI SDK for a request whose mandatory field is nil. -/
def errorMandatoryFieldNil : Error :=
  { Reason := "", Message := "mandatory field subnetIds is nil" }

/-- The SDK call `lb.client.Loadbalancer.CreateLoadBalancer`: `subnetIds` is a
mandatory field of the request body, so a request whose `SubnetIds` is the nil
slice is refused by the SDK with an error and nothing is sent; any other
request is sent and the API answers.  Returns the error and the requests that
reached the API.  (`CompartmentId`, `DisplayName` and `ShapeName`, the other
mandatory fields, are never nil in a request that `Create` builds.) -/
def CreateLoadBalancer (api : CreateLoadBalancerRequest → Option Error)
    (req : CreateLoadBalancerRequest) : Option Error × List CreateLoadBalancerRequest :=
  match req.CreateLoadBalancerDetails.SubnetIds with
  | none => (some errorMandatoryFieldNil, [])
  | some _ => (api req, [req])

/-- Create returns the Go results `(*LoadBalancer, error)` and the requests
that reached the cloud API (its two log lines are left out). -/
def OCILoadBalancerController.Create (lb : OCILoadBalancerController)
    (definition : LoadBalancerDefinition) :
    (Option LoadBalancer × Option Error) × List CreateLoadBalancerRequest :=
  let details : CreateLoadBalancerDetails :=
    { CompartmentId := some lb.configuration.LoadbalancerCompartment
      DisplayName := some definition.Name
      ShapeName := some definition.Shape
      IsPrivate := some false
      SubnetIds := lb.configuration.LoadbalancerSubnets
      FreeformTags := none }
  let req : CreateLoadBalancerRequest := { CreateLoadBalancerDetails := details }
  match CreateLoadBalancer lb.client req with
  | (some err, sent) => ((none, some err), sent)
  | (none, sent) => ((none, none), sent)

/-! ## internal/ingress/controller/reconciller.go -/

/-- types.NamespacedName -/
structure NamespacedName where
  Namespace : String
  Name : String
  deriving DecidableEq, Repr

/-- reconcile.Request -/
structure Request where
  NamespacedName : NamespacedName
  deriving DecidableEq, Repr

/-- reconcile.Result -/
structure Result where
  Requeue : Bool
  RequeueAfter : Nat
  deriving DecidableEq, Repr

/-- The Go zero value `reconcile.Result{}`. -/
def Result.empty : Result := { Requeue := false, RequeueAfter := 0 }

/-- The Go zero value `&extensions.Ingress{}`. -/
def Ingress.empty : Ingress :=
  { Namespace := "", Name := "", Annotations := none, Rules := [],
    StatusLoadBalancerIngress := [] }

/-- What a reconcile does to the outside, in order: a log line (its format
string), a call of the load-balancer adapter, a status write to the cluster. -/
inductive Event where
  | log (format : String)
  | adapterReconcile (ingress : Ingress)
  | statusUpdate (ingress : Ingress)
  deriving DecidableEq, Repr

/-- The Reconciler with its collaborators: `cacheGet` is `r.cache.Get` (the
object it fills in, or its error), `controllerReconcile` is
`r.controller.Reconcile` (results `(*LoadBalancer, error)`), `statusUpdate` is
`r.client.Status().Update` (its error, `none` for nil). -/
structure Reconciler where
  cacheGet : NamespacedName → Except Error Ingress
  controllerReconcile : Ingress → Except Error (Option LoadBalancer)
  statusUpdate : Ingress → Option Error

def Reconciler.deleteIngress (_r : Reconciler) (_ingress : Ingress) : List Event :=
  [Event.log "Deleting ingress: %s"]

/-- Sets the status of the Ingress and writes it; returns the Go error and the
events. -/
def Reconciler.updateIngressStatus (r : Reconciler) (ingress : Ingress)
    (_lb : Option LoadBalancer) : Option Error × List Event :=
  let ingress1 : Ingress :=
    { ingress with StatusLoadBalancerIngress := [{ IP := "", Hostname := "todo" }] }
  (r.statusUpdate ingress1, [Event.statusUpdate ingress1])

def Reconciler.reconcileIngress (r : Reconciler) (ingress : Ingress) :
    Option Error × List Event :=
  match r.controllerReconcile ingress with
  | Except.error err => (some err, [Event.adapterReconcile ingress])
  | Except.ok lb =>
    match r.updateIngressStatus ingress lb with
    | (some err, evs) => (some err, Event.adapterReconcile ingress :: evs)
    | (none, evs) => (none, Event.adapterReconcile ingress :: evs)

/-- Reconcile returns the Go results `(reconcile.Result, error)` and the
events.  The value `reconcileIngress` returns is dropped by the caller. -/
def Reconciler.Reconcile (r : Reconciler) (request : Request) :
    (Result × Option Error) × List Event :=
  let ev0 := [Event.log "Reconcile loop called"]
  match r.cacheGet request.NamespacedName with
  | Except.error err =>
    if !IsNotFound err then
      ((Result.empty, some err), ev0)
    else
      ((Result.empty, none),
        ev0 ++ [Event.log "Could not find ingress to reconcile: %s"]
          ++ r.deleteIngress Ingress.empty)
  | Except.ok ingress =>
    let out := r.reconcileIngress ingress
    ((Result.empty, none), ev0 ++ [Event.log "Reconciling ingress: %s"] ++ out.2)

/-- The status writes among the events. -/
def statusWrites : List Event → List Ingress
  | [] => []
  | Event.statusUpdate ing :: rest => ing :: statusWrites rest
  | _ :: rest => statusWrites rest

/-! ## Concrete inputs -/

def configExample : Config :=
  { LoadbalancerCompartment := "ocid1.compartment.oc1..config",
    LoadbalancerSubnets := some ["ocid1.subnet.oc1..a", "ocid1.subnet.oc1..b"] }

/-- Ingress `default/app`: no annotations, one rule with path `/`. -/
def ingressDefaultApp : Ingress :=
  { Namespace := "default"
    Name := "app"
    Annotations := none
    Rules := [⟨"", [⟨"/", ⟨"app", 80⟩⟩]⟩]
    StatusLoadBalancerIngress := [] }

/-- Ingress `other/app`: the same name in another namespace. -/
def ingressOtherApp : Ingress :=
  { ingressDefaultApp with Namespace := "other" }

/-- A node whose internal address is 10.0.0.5. -/
def nodeExample : Node :=
  { Name := "node-1",
    StatusAddresses := [{ Type_ := "Hostname", Address := "node-1" },
      { Type_ := "InternalIP", Address := "10.0.0.5" }] }

/-- The Specification of the create scenario. -/
def specCreateScenario : Specification :=
  NewSpecification configExample (some ingressDefaultApp) [some nodeExample]

def ingressAnnotated (k v : String) : Ingress :=
  { ingressDefaultApp with Annotations := some [(k, v)] }

/-- A private load-balancer definition with its own compartment, subnets and
ownership tag. -/
def definitionPrivate : LoadBalancerDefinition :=
  { Name := "app"
    Shape := "400Mbps"
    IsPrivate := true
    Compartment := "ocid1.compartment.oc1..override"
    Subnets := some ["ocid1.subnet.oc1..c"]
    FreeformTags := some [("ingress.name", "app")] }

/-- A controller whose cloud client accepts every create request. -/
def controllerExample : OCILoadBalancerController :=
  { client := fun _ => none, configuration := configExample }

def requestDefaultApp : Request :=
  { NamespacedName := { Namespace := "default", Name := "app" } }

def errorNotFound : Error :=
  { Reason := "NotFound", Message := "ingress default/app not found" }

def errorUnavailable : Error :=
  { Reason := "ServiceUnavailable", Message := "load balancer API unavailable" }

/-- An observed load balancer that is still being created. -/
def loadBalancerCreating : LoadBalancer :=
  { Id := "ocid1.loadbalancer.oc1..x", LifecycleState := "CREATING",
    IpAddresses := ["203.0.113.7"] }

/-- The cache has no Ingress for any key. -/
def reconcilerIngressGone : Reconciler :=
  { cacheGet := fun _ => Except.error errorNotFound
    controllerReconcile := fun _ => Except.ok (some loadBalancerCreating)
    statusUpdate := fun _ => none }

/-- The Ingress is found and the load-balancer adapter fails. -/
def reconcilerAdapterFails : Reconciler :=
  { cacheGet := fun _ => Except.ok ingressDefaultApp
    controllerReconcile := fun _ => Except.error errorUnavailable
    statusUpdate := fun _ => none }

/-- The Ingress is found, the adapter succeeds and the status write fails. -/
def reconcilerStatusWriteFails : Reconciler :=
  { cacheGet := fun _ => Except.ok ingressDefaultApp
    controllerReconcile := fun _ => Except.ok (some loadBalancerCreating)
    statusUpdate := fun _ => some errorUnavailable }

/-- The Ingress is found and the adapter returns a load balancer that is not
yet ACTIVE; the status write succeeds. -/
def reconcilerCreating : Reconciler :=
  { cacheGet := fun _ => Except.ok ingressDefaultApp
    controllerReconcile := fun _ => Except.ok (some loadBalancerCreating)
    statusUpdate := fun _ => none }

/-! ## Shared lemmas on annotation lookup -/

lemma getIngressAnnotationOrDefault_some (ing : Ingress) (k d v : String)
    (h : ing.Annotations.get k = some v) :
    getIngressAnnotationOrDefault (some ing) k d = some v := by
  simp [getIngressAnnotationOrDefault, h]

lemma getIngressAnnotationOrDefault_none (ing : Ingress) (k d : String)
    (h : ing.Annotations.get k = none) :
    getIngressAnnotationOrDefault (some ing) k d = some d := by
  simp [getIngressAnnotationOrDefault, h]

lemma getIngressAnnotationOrDefault_eq (ing : Ingress) (k d : String) :
    getIngressAnnotationOrDefault (some ing) k d
      = some ((ing.Annotations.get k).getD d) := by
  cases h : ing.Annotations.get k with
  | none => simp [getIngressAnnotationOrDefault, h]
  | some v => simp [getIngressAnnotationOrDefault, h]

lemma StringMap_get_nil (k : String) : StringMap.get none k = none := rfl

lemma StringMap_get_empty (k : String) : StringMap.get (some []) k = none := rfl

/-! ## Specification: ownership tag (C1) -/

/-- C1, as stated, fails: the Ingresses `default/app` and `other/app` have
different namespaces and yet get the same free-form tags. -/
theorem C1_same_name_other_namespace_same_tag :
    (NewSpecification configExample (some ingressDefaultApp) []).GetLoadBalancerFreeFormTags
        = (NewSpecification configExample (some ingressOtherApp) []).GetLoadBalancerFreeFormTags
      ∧ ¬ (ingressDefaultApp.Namespace = ingressOtherApp.Namespace
            ∧ ingressDefaultApp.Name = ingressOtherApp.Name) := by
  decide

/-- C1, amended: for every Ingress the tags are returned (no failure), the tag
`ingress.name` is present and is the name of the Ingress, and two Ingresses get
the same tags if and only if they have the same name, whatever their
namespaces. -/
theorem C1_ownership_tag_is_the_name (cfg : Config) (nodes : List (Option Node))
    (a b : Ingress) :
    (NewSpecification cfg (some a) nodes).GetLoadBalancerFreeFormTags
        = some [("ingress.name", a.Name)]
      ∧ StringMap.get (NewSpecification cfg (some a) nodes).GetLoadBalancerFreeFormTags
          "ingress.name" = some a.Name
      ∧ ((NewSpecification cfg (some a) nodes).GetLoadBalancerFreeFormTags
            = (NewSpecification cfg (some b) nodes).GetLoadBalancerFreeFormTags
          ↔ a.Name = b.Name) := by
  refine ⟨rfl, ?_, ?_⟩
  · simp [NewSpecification, Specification.GetLoadBalancerFreeFormTags, StringMap.get,
      List.lookup]
  · simp [NewSpecification, Specification.GetLoadBalancerFreeFormTags]

/-! ## Specification: compartment (C2) -/

/-- C2, evaluated at the failing input: the Ingress carries the compartment
annotation with value `ocid1.compartment.oc1..override`, and
GetLoadBalancerCompartment returns the configured compartment instead. -/
theorem C2_compartment_annotation_ignored :
    (ingressAnnotated IngressAnnotationLoadBalancerCompartment
        "ocid1.compartment.oc1..override").Annotations.get
          IngressAnnotationLoadBalancerCompartment
        = some "ocid1.compartment.oc1..override"
      ∧ (NewSpecification configExample
          (some (ingressAnnotated IngressAnnotationLoadBalancerCompartment
            "ocid1.compartment.oc1..override")) []).GetLoadBalancerCompartment
        = "ocid1.compartment.oc1..config" := by
  decide

/-! ## Specification: visibility (C3) -/

/-- C3: for every Ingress, LoadBalancerIsPrivate returns a value (it does not
fail); the value is true if and only if the visibility annotation is present
with value exactly `private`, and false otherwise; in particular it is false
for a nil annotations map and for an empty one. -/
theorem C3_LoadBalancerIsPrivate_iff (cfg : Config) (nodes : List (Option Node))
    (ing : Ingress) :
    ((NewSpecification cfg (some ing) nodes).LoadBalancerIsPrivate = some true
        ↔ ing.Annotations.get IngressAnnotationLoadBalancerVisibility = some "private")
      ∧ ((NewSpecification cfg (some ing) nodes).LoadBalancerIsPrivate = some false
        ↔ ¬ ing.Annotations.get IngressAnnotationLoadBalancerVisibility = some "private")
      ∧ (NewSpecification cfg (some { ing with Annotations := none })
          nodes).LoadBalancerIsPrivate = some false
      ∧ (NewSpecification cfg (some { ing with Annotations := some [] })
          nodes).LoadBalancerIsPrivate = some false := by
  refine ⟨?_, ?_, ?_, ?_⟩
  · simp only [NewSpecification, Specification.LoadBalancerIsPrivate,
      getIngressAnnotationOrDefault_eq]
    cases h : ing.Annotations.get IngressAnnotationLoadBalancerVisibility with
    | none => simp
    | some v => simp
  · simp only [NewSpecification, Specification.LoadBalancerIsPrivate,
      getIngressAnnotationOrDefault_eq]
    cases h : ing.Annotations.get IngressAnnotationLoadBalancerVisibility with
    | none => simp
    | some v => simp
  · rfl
  · rfl

/-! ## Specification: shape (C4, C5) -/

/-- C4: for every Ingress, GetLoadBalancerShape returns the value of the shape
annotation when the Ingress carries it, and the default `100Mbps` when the
annotation is absent, also when the annotations map is nil. -/
theorem C4_GetLoadBalancerShape_annotation_or_default (cfg : Config)
    (nodes : List (Option Node)) (ing : Ingress) :
    (∀ v : String, ing.Annotations.get IngressAnnotationLoadBalancerShape = some v →
        (NewSpecification cfg (some ing) nodes).GetLoadBalancerShape = some v)
      ∧ (ing.Annotations.get IngressAnnotationLoadBalancerShape = none →
        (NewSpecification cfg (some ing) nodes).GetLoadBalancerShape = some "100Mbps")
      ∧ (NewSpecification cfg (some { ing with Annotations := none })
          nodes).GetLoadBalancerShape = some "100Mbps" := by
  refine ⟨?_, ?_, rfl⟩
  · intro v h
    exact getIngressAnnotationOrDefault_some ing _ _ v h
  · intro h
    exact getIngressAnnotationOrDefault_none ing _ _ h

/-- C4 at concrete inputs: the annotation value `400Mbps` yields `400Mbps`, and
the Ingress `default/app` without annotations yields `100Mbps`. -/
theorem C4_GetLoadBalancerShape_witness :
    (NewSpecification configExample
        (some (ingressAnnotated IngressAnnotationLoadBalancerShape "400Mbps"))
        []).GetLoadBalancerShape = some "400Mbps"
      ∧ (NewSpecification configExample (some ingressDefaultApp)
        []).GetLoadBalancerShape = some "100Mbps" :=
  ⟨(C4_GetLoadBalancerShape_annotation_or_default configExample []
      (ingressAnnotated IngressAnnotationLoadBalancerShape "400Mbps")).1
      "400Mbps" (by decide),
   (C4_GetLoadBalancerShape_annotation_or_default configExample []
      ingressDefaultApp).2.1 (by decide)⟩

/-- C5, as stated, fails: the empty string is not an available shape, and for
the Ingress whose shape annotation is the empty string GetLoadBalancerShape
returns the empty string, while for the same Ingress without the annotation it
returns `100Mbps`. -/
theorem C5_malformed_shape_is_returned :
    "" ∉ availableShapes
      ∧ (NewSpecification configExample
          (some (ingressAnnotated IngressAnnotationLoadBalancerShape ""))
          []).GetLoadBalancerShape = some ""
      ∧ (NewSpecification configExample
          (some { ingressAnnotated IngressAnnotationLoadBalancerShape "" with
            Annotations := some [] })
          []).GetLoadBalancerShape = some "100Mbps"
      ∧ (NewSpecification configExample
          (some (ingressAnnotated IngressAnnotationLoadBalancerShape ""))
          []).GetLoadBalancerShape ≠ some "100Mbps" := by
  decide

/-- C5, amended: for every Ingress whose shape annotation value is not one of
the available shapes, GetLoadBalancerShape does not fail and returns that value
unchanged, which is not the default `100Mbps`. -/
theorem C5_shape_value_not_validated (cfg : Config) (nodes : List (Option Node))
    (ing : Ingress) (v : String)
    (hv : ing.Annotations.get IngressAnnotationLoadBalancerShape = some v)
    (hbad : v ∉ availableShapes) :
    (NewSpecification cfg (some ing) nodes).GetLoadBalancerShape = some v
      ∧ (NewSpecification cfg (some ing) nodes).GetLoadBalancerShape
          ≠ some defaultLoadBalancerShape := by
  have hs : (NewSpecification cfg (some ing) nodes).GetLoadBalancerShape = some v :=
    getIngressAnnotationOrDefault_some ing _ _ v hv
  refine ⟨hs, ?_⟩
  rw [hs]
  intro h
  apply hbad
  have hv2 : v = defaultLoadBalancerShape := Option.some.inj h
  rw [hv2]
  decide

/-- C5, amended, at the shape annotation value `8Gbps`. -/
theorem C5_shape_value_not_validated_witness :
    (ingressAnnotated IngressAnnotationLoadBalancerShape "8Gbps").Annotations.get
        IngressAnnotationLoadBalancerShape = some "8Gbps"
      ∧ "8Gbps" ∉ availableShapes
      ∧ (NewSpecification configExample
          (some (ingressAnnotated IngressAnnotationLoadBalancerShape "8Gbps"))
          []).GetLoadBalancerShape = some "8Gbps"
      ∧ (NewSpecification configExample
          (some (ingressAnnotated IngressAnnotationLoadBalancerShape "8Gbps"))
          []).GetLoadBalancerShape ≠ some defaultLoadBalancerShape :=
  ⟨by decide, by decide,
   C5_shape_value_not_validated configExample []
     (ingressAnnotated IngressAnnotationLoadBalancerShape "8Gbps") "8Gbps"
     (by decide) (by decide)⟩

/-! ## Specification: backend sets and path routes (C6) -/

/-- C6, evaluated at the failing input: in the create scenario (Ingress
`default/app`, no annotations, one rule with path `/` to service `app`, one
node whose internal address is 10.0.0.5) GetBackendSets returns the empty map
and GetPathRouteSets returns the empty map, so there is not exactly one backend
set holding 10.0.0.5 and not exactly one path route for `/`. -/
theorem C6_create_scenario_returns_empty_maps :
    specCreateScenario.Ingress = some ingressDefaultApp
      ∧ ingressDefaultApp.Annotations = none
      ∧ ingressDefaultApp.Rules = [⟨"", [⟨"/", ⟨"app", 80⟩⟩]⟩]
      ∧ specCreateScenario.Nodes.map getNodeInternalIPAddress = [some "10.0.0.5"]
      ∧ specCreateScenario.GetBackendSets = []
      ∧ specCreateScenario.GetPathRouteSets = []
      ∧ ¬ (specCreateScenario.GetBackendSets.length = 1
            ∧ ∃ bs ∈ specCreateScenario.GetBackendSets,
                ∃ b ∈ bs.2.Backends, b.IpAddress = "10.0.0.5")
      ∧ ¬ (specCreateScenario.GetPathRouteSets.length = 1
            ∧ ∃ rs ∈ specCreateScenario.GetPathRouteSets,
                ∃ r ∈ rs.2.PathRoutes, r.Path = "/") := by
  refine ⟨rfl, rfl, rfl, by decide, rfl, rfl, ?_, ?_⟩
  · simp [Specification.GetBackendSets]
  · simp [Specification.GetPathRouteSets]

/-! ## OCILoadBalancerController.Create (C7) -/

/-- C7, evaluated at the failing input: for a private definition that carries
the ownership tag `ingress.name = app`, the one create request that reaches the
cloud API has IsPrivate false and no free-form tags; its compartment and
subnets are those configured on the controller, not those of the definition. -/
theorem C7_create_request_drops_visibility_and_tags :
    definitionPrivate.IsPrivate = true
      ∧ definitionPrivate.FreeformTags = some [("ingress.name", "app")]
      ∧ definitionPrivate.Compartment = "ocid1.compartment.oc1..override"
      ∧ definitionPrivate.Subnets = some ["ocid1.subnet.oc1..c"]
      ∧ (controllerExample.Create definitionPrivate).2
          = [{ CreateLoadBalancerDetails :=
                { CompartmentId := some "ocid1.compartment.oc1..config"
                  DisplayName := some "app"
                  ShapeName := some "400Mbps"
                  IsPrivate := some false
                  SubnetIds := some ["ocid1.subnet.oc1..a", "ocid1.subnet.oc1..b"]
                  FreeformTags := none } }] := by
  decide

/-- With the nil slice as configured subnets the SDK refuses the request:
Create returns the error and no request reaches the cloud API. -/
lemma Create_nil_subnets_sends_nothing (api : CreateLoadBalancerRequest → Option Error)
    (compartment : String) (definition : LoadBalancerDefinition) :
    OCILoadBalancerController.Create
        { client := api,
          configuration := { LoadbalancerCompartment := compartment,
                             LoadbalancerSubnets := none } }
        definition
      = ((none, some errorMandatoryFieldNil), []) := rfl

/-! ## Reconciler (C8, C9, C10) -/

/-- C8, evaluated at the failing input: the cache answers NotFound for
`default/app`; Reconcile returns the empty Result and a nil error and writes no
status, and what deleteIngress does is one log line: every event of the
reconcile is a log line, so no delete reaches the load-balancer adapter or the
cloud. -/
theorem C8_Reconcile_not_found_only_logs :
    reconcilerIngressGone.cacheGet requestDefaultApp.NamespacedName
        = Except.error errorNotFound
      ∧ IsNotFound errorNotFound = true
      ∧ reconcilerIngressGone.deleteIngress Ingress.empty
          = [Event.log "Deleting ingress: %s"]
      ∧ reconcilerIngressGone.Reconcile requestDefaultApp
          = ((Result.empty, none),
              [Event.log "Reconcile loop called",
                Event.log "Could not find ingress to reconcile: %s",
                Event.log "Deleting ingress: %s"])
      ∧ statusWrites (reconcilerIngressGone.Reconcile requestDefaultApp).2 = [] :=
  ⟨rfl, by decide, rfl, by decide, by decide⟩

/-- C9, evaluated at the failing inputs: when the adapter fails, and when the
status write fails, reconcileIngress returns the error, and Reconcile all the
same returns the empty Result and a nil error. -/
theorem C9_Reconcile_drops_failure :
    (reconcilerAdapterFails.reconcileIngress ingressDefaultApp).1 = some errorUnavailable
      ∧ (reconcilerAdapterFails.Reconcile requestDefaultApp).1 = (Result.empty, none)
      ∧ (reconcilerStatusWriteFails.reconcileIngress ingressDefaultApp).1
          = some errorUnavailable
      ∧ (reconcilerStatusWriteFails.Reconcile requestDefaultApp).1
          = (Result.empty, none) := by
  decide

/-- C10, as stated, fails: the adapter returns a load balancer in state
CREATING, not ACTIVE, and a status is written all the same. -/
theorem C10_status_written_when_not_active :
    reconcilerCreating.controllerReconcile ingressDefaultApp
        = Except.ok (some loadBalancerCreating)
      ∧ loadBalancerCreating.LifecycleState ≠ "ACTIVE"
      ∧ statusWrites (reconcilerCreating.reconcileIngress ingressDefaultApp).2 ≠ [] :=
  ⟨rfl, by decide, by decide⟩

/-- C10, amended: for every Ingress and every observed load balancer returned
by a successful adapter reconcile, reconcileIngress attempts exactly one status
write, whatever the state of the load balancer; the write is for that Ingress
and its status holds exactly one load-balancer entry. -/
theorem C10_status_written_once (r : Reconciler) (ing : Ingress)
    (lb : Option LoadBalancer) (hok : r.controllerReconcile ing = Except.ok lb) :
    ∃ w, statusWrites (r.reconcileIngress ing).2 = [w]
      ∧ w.Namespace = ing.Namespace ∧ w.Name = ing.Name
      ∧ w.Annotations = ing.Annotations ∧ w.Rules = ing.Rules
      ∧ w.StatusLoadBalancerIngress.length = 1 := by
  unfold Reconciler.reconcileIngress
  rw [hok]
  dsimp only [Reconciler.updateIngressStatus]
  cases r.statusUpdate _ <;> exact ⟨_, rfl, rfl, rfl, rfl, rfl, rfl⟩

/-- C10, amended, at a load balancer that is still in state CREATING. -/
theorem C10_status_written_once_witness :
    ∃ w, statusWrites (reconcilerCreating.reconcileIngress ingressDefaultApp).2 = [w]
      ∧ w.Namespace = ingressDefaultApp.Namespace ∧ w.Name = ingressDefaultApp.Name
      ∧ w.Annotations = ingressDefaultApp.Annotations
      ∧ w.Rules = ingressDefaultApp.Rules
      ∧ w.StatusLoadBalancerIngress.length = 1 :=
  C10_status_written_once reconcilerCreating ingressDefaultApp
    (some loadBalancerCreating) rfl

end IngressOCI
